import Mathlib

/-
  Verification model of the dynamolock repository (a DynamoDB based
  distributed advisory lock client).

  The Python sources are shallowly embedded as Lean definitions:

  * `schema.py`   -> `DynamoDBLockSchema`, `to_schema`, `to_dict`
  * `lock.py`     -> `DynamoDBLock`
  * `policy.py`   -> `DynamoDBLockPolicy`, `is_name_valid`, expiry tests
  * `client.py`   -> `update_entry`, `delete_entry`, `create_entry`,
                     `touch_lock`, `release_lock`, `retrieve_lock`,
                     `does_lock_exist`, and the `acquire_lock` retry loop
                     (`acquireBody` / `acquireRun`)
  * `worker.py`   -> `workerTouchList`, `workerCycle`, `workerRun`

  Stateful code is modelled by explicit state passing: the DynamoDB row
  for a name is an `Option DBRecord`, the client cache (`self.locks`) is
  an association list, and every call that reads the wall clock or draws
  a fresh version takes those values as explicit arguments (for loops,
  as an environment indexed by the iteration counter).  Fallible paths
  return `Option`; the one Python path that raises (the NameError in
  `_delete_entry`s exception handler) returns `Except`.
-/

namespace DynamoLock

/- ------------------------------------------------------------------
   schema.py : attribute values and dictionaries
   A Python dict is modelled as a partial map from string keys.  A key
   that is present with value `None` maps to `some Val.null`, an absent
   key maps to `none`, mirroring the distinction Python makes between
   `k in d` and `d[k] is None`.
   ------------------------------------------------------------------ -/

inductive Val where
  | str : String → Val
  | num : Int → Val
  | boolVal : Bool → Val
  | null : Val
deriving DecidableEq

def Pdict : Type := String → Option Val

/-- Python dict assignment `d[k] = v`. -/
def dinsert (d : Pdict) (k : String) (v : Val) : Pdict :=
  fun k2 => if k2 = k then some v else d k2

/-- The empty dict `{}`. -/
def demp : Pdict := fun _ => none

/-- `DynamoDBLockSchema.__init__` from schema.py: the configurable
attribute names of the backing table plus the table metadata. -/
structure DynamoDBLockSchema where
  name : String
  range_key : String
  duration : String
  is_locked : String
  owner : String
  version : String
  payload : String
  table_name : String
  read_capacity : Nat
  write_capacity : Nat

/-- The default schema instance (the kwargs defaults in schema.py). -/
def defaultSchema : DynamoDBLockSchema :=
  { name := "N", range_key := "R", duration := "D", is_locked := "L",
    owner := "O", version := "V", payload := "P", table_name := "Locks",
    read_capacity := 1, write_capacity := 1 }

/-- One line of `to_schema`:
`if logical in params: schema[attr] = params[logical]`. -/
def putField (params : Pdict) (acc : Pdict) (logical attr : String) : Pdict :=
  match params logical with
  | some v => dinsert acc attr v
  | none => acc

/-- `DynamoDBLockSchema.to_schema` from schema.py: build a fresh dict,
copying (in source order) each of the six logical fields that is present
in `params` to its schema attribute name.  The `range_key` line is
commented out in the source and `timestamp` has no line at all, so
neither is ever copied. -/
def to_schema (s : DynamoDBLockSchema) (params : Pdict) : Pdict :=
  putField params
    (putField params
      (putField params
        (putField params
          (putField params
            (putField params demp "name" s.name)
            "duration" s.duration)
          "is_locked" s.is_locked)
        "owner" s.owner)
      "version" s.version)
    "payload" s.payload

/-- `DynamoDBLockSchema.to_dict` from schema.py: the returned dict holds
exactly the six logical keys, each mapped to `schema.get(attr, None)`
(so a missing attribute becomes a present key with value null). -/
def to_dict (s : DynamoDBLockSchema) (schemaDict : Pdict) : Pdict :=
  fun k =>
    if k = "name" then some ((schemaDict s.name).getD Val.null)
    else if k = "duration" then some ((schemaDict s.duration).getD Val.null)
    else if k = "is_locked" then some ((schemaDict s.is_locked).getD Val.null)
    else if k = "owner" then some ((schemaDict s.owner).getD Val.null)
    else if k = "version" then some ((schemaDict s.version).getD Val.null)
    else if k = "payload" then some ((schemaDict s.payload).getD Val.null)
    else none

/-- The six attribute names a schema maps the logical fields to. -/
def schemaAttrs (s : DynamoDBLockSchema) : List String :=
  [s.name, s.duration, s.is_locked, s.owner, s.version, s.payload]

/- ------------------------------------------------------------------
   lock.py : the immutable lock record (a namedtuple in the source)
   ------------------------------------------------------------------ -/

/-- `DynamoDBLock` from lock.py.  `version` is an `Option` because
`retrieve_lock` hands out records with `version=None`. -/
structure DynamoDBLock where
  name : String
  version : Option String
  owner : String
  duration : Nat
  timestamp : Nat
  is_locked : Bool
  payload : Option String
deriving DecidableEq

/-- A row of the backing DynamoDB table.  `timestamp` is absent by
construction: `to_schema` never copies it, so it is never persisted. -/
structure DBRecord where
  name : String
  duration : Nat
  is_locked : Bool
  owner : String
  version : String
  payload : Option String
deriving DecidableEq

/-- A partial update / keyword-argument dict over the lock fields, as
built by `_update_entry` (`updates`) and by the `**params` kwargs the
client methods accept.  `none` means the key is absent. -/
structure LockUpdate where
  name : Option String := none
  version : Option String := none
  owner : Option String := none
  duration : Option Nat := none
  timestamp : Option Nat := none
  is_locked : Option Bool := none
  payload : Option (Option String) := none
deriving DecidableEq

/-- The empty kwargs dict. -/
def noParams : LockUpdate := {}

/-- `updates.update(update)` in `_update_entry`: keys of `update`
override those of `base`.  (In the source the merge is skipped when
`update` is falsy, which coincides with merging the empty dict.) -/
def mergeUpdate (base upd : LockUpdate) : LockUpdate :=
  { name := upd.name.orElse (fun _ => base.name),
    version := upd.version.orElse (fun _ => base.version),
    owner := upd.owner.orElse (fun _ => base.owner),
    duration := upd.duration.orElse (fun _ => base.duration),
    timestamp := upd.timestamp.orElse (fun _ => base.timestamp),
    is_locked := upd.is_locked.orElse (fun _ => base.is_locked),
    payload := upd.payload.orElse (fun _ => base.payload) }

/-- Effect of the PUT actions of `_update_entry` on the stored row.
The update dict goes through `to_schema` first, which drops the
`timestamp` key, so the row has no timestamp to update. -/
def applyUpdateDB (r : DBRecord) (u : LockUpdate) : DBRecord :=
  { name := u.name.getD r.name,
    duration := u.duration.getD r.duration,
    is_locked := u.is_locked.getD r.is_locked,
    owner := u.owner.getD r.owner,
    version := u.version.getD r.version,
    payload := match u.payload with
      | some p => p
      | none => r.payload }

/-- `lock._replace(**updates)` on the in-memory record: every key of the
update dict is applied, including `timestamp`. -/
def lockReplace (l : DynamoDBLock) (u : LockUpdate) : DynamoDBLock :=
  { name := u.name.getD l.name,
    version := (u.version.map some).getD l.version,
    owner := u.owner.getD l.owner,
    duration := u.duration.getD l.duration,
    timestamp := u.timestamp.getD l.timestamp,
    is_locked := u.is_locked.getD l.is_locked,
    payload := u.payload.getD l.payload }

/- ------------------------------------------------------------------
   policy.py : timing constants and the default helpers
   ------------------------------------------------------------------ -/

/-- The timing policy (`DynamoDBLockPolicy.__init__`), with the
durations already converted to the units the source uses
(`acquire_timeout` and `lock_duration` in milliseconds, `retry_period`
in seconds). -/
structure DynamoDBLockPolicy where
  acquire_timeout : Nat
  retry_period : Nat
  lock_duration : Nat
  delete_lock : Bool
deriving DecidableEq

/-- Default policy values: 10 s acquire timeout, 10 s retry period,
60 s lock duration, delete on release. -/
def defaultPolicy : DynamoDBLockPolicy :=
  { acquire_timeout := 10000, retry_period := 10,
    lock_duration := 60000, delete_lock := true }

/-- `DynamoDBLockPolicy.is_name_valid` applied to a string:
`bool(name)` is true exactly for nonempty strings. -/
def is_name_valid (name : String) : Bool := name != ""

/-- `DynamoDBLockPolicy.is_name_valid` as `is_lock_valid` actually
invokes it: the client passes the whole lock record rather than
`lock.name`, and `bool()` of a 7-field namedtuple is always true, so
this check never rejects anything. -/
def is_name_valid_of_lock (_lock : DynamoDBLock) : Bool := true

/-- The client state that the embedded operations need: the owner id
fixed at construction and the installed policy.  The `locks` cache and
the table row are threaded explicitly through each operation. -/
structure DynamoDBLockClient where
  owner : String
  policy : DynamoDBLockPolicy
deriving DecidableEq

/-- `DynamoDBLockClient.is_lock_expired`: the wall clock (`now`, the
value `policy.get_new_timestamp()` returns at the call) is strictly
past `timestamp + duration`. -/
def is_lock_expired (now : Nat) (lock : DynamoDBLock) : Bool :=
  now > lock.timestamp + lock.duration

/-- `DynamoDBLockClient.is_lock_active`: negation of expiry. -/
def is_lock_active (now : Nat) (lock : DynamoDBLock) : Bool :=
  now ≤ lock.timestamp + lock.duration

/-- `DynamoDBLockClient.is_lock_valid`: valid name (but see
`is_name_valid_of_lock`), still locked, owned by this client, and not
locally expired. -/
def is_lock_valid (c : DynamoDBLockClient) (now : Nat) (lock : DynamoDBLock) : Bool :=
  is_name_valid_of_lock lock && lock.is_locked
    && (lock.owner == c.owner) && is_lock_active now lock

/- ------------------------------------------------------------------
   The client cache `self.locks` as an association list
   ------------------------------------------------------------------ -/

def Cache : Type := List (String × DynamoDBLock)

/-- `name in self.locks` / `self.locks[name]`. -/
def cacheLookup (cache : Cache) (k : String) : Option DynamoDBLock :=
  (cache.find? (fun p => p.1 == k)).map (fun p => p.2)

/-- `self.locks[name] = lock`. -/
def cacheInsert (cache : Cache) (k : String) (v : DynamoDBLock) : Cache :=
  (k, v) :: cache.filter (fun p => p.1 != k)

/-- `del self.locks[name]` (guarded by a membership test at the one
call site in `release_lock`, so no KeyError can occur there). -/
def cacheErase (cache : Cache) (k : String) : Cache :=
  cache.filter (fun p => p.1 != k)

/- ------------------------------------------------------------------
   client.py : the raw dynamo methods
   ------------------------------------------------------------------ -/

/-- The one exception the embedding has to surface: the
`ConditionalCheckFailedException` handler of `_delete_entry` logs the
variable `name`, which is not bound anywhere in that method or module,
so CPython raises a NameError out of the handler. -/
inductive PyError where
  | nameError : PyError
deriving DecidableEq

/-- The field names accepted by the `expect` argument of
`_update_entry` (after `to_schema` only the six logical fields can
appear in a condition). -/
inductive LockField where
  | fname | fversion | fowner | fduration | fis_locked | fpayload
deriving DecidableEq

/-- `getattr(lock, key)` compared against the stored attribute, the
building block of the `expects` condition dict. -/
def getattrMatches (r : DBRecord) (l : DynamoDBLock) : LockField → Bool
  | LockField.fname => r.name == l.name
  | LockField.fversion => some r.version == l.version
  | LockField.fowner => r.owner == l.owner
  | LockField.fduration => r.duration == l.duration
  | LockField.fis_locked => r.is_locked == l.is_locked
  | LockField.fpayload => r.payload == l.payload

/-- The whole `expects` dict holds iff every listed field matches. -/
def expectMatches (r : DBRecord) (l : DynamoDBLock) (fs : List LockField) : Bool :=
  fs.all (getattrMatches r l)

/-- `DynamoDBLockClient._update_entry`.  Arguments beyond the source
signature are the values the source pulls from its environment: the
fresh version, the wall clock at the write, and the current table row
for `lock.name` (`none` when no row exists).  Returns the new table row
and the `lock._replace(**updates)` result (`none` on a failed
condition, mirroring the `ConditionalCheckFailedException` handler). -/
def update_entry (lock : DynamoDBLock) (expect : Option (List LockField))
    (update : LockUpdate) (newVersion : String) (writeTime : Nat)
    (row : Option DBRecord) : Option DBRecord × Option DynamoDBLock :=
  let updates := mergeUpdate
    { version := some newVersion, timestamp := some writeTime } update
  let expects := match expect with
    | some l => if l.isEmpty
        then [LockField.fversion, LockField.fowner, LockField.fname] else l
    | none => [LockField.fversion, LockField.fowner, LockField.fname]
  match row with
  | none => (none, none)
  | some r =>
      if expectMatches r lock expects
      then (some (applyUpdateDB r updates), some (lockReplace lock updates))
      else (some r, none)

/-- `DynamoDBLockClient._delete_entry`: conditional delete expecting
the stored `name` and `version` to match the lock.  On a failed
condition the exception handler itself raises NameError (it logs the
unbound variable `name`), so the failure side is an error, not a
`false` return. -/
def delete_entry (lock : DynamoDBLock) (row : Option DBRecord) :
    Option DBRecord × Except PyError Bool :=
  match row with
  | none => (none, Except.error PyError.nameError)
  | some r =>
      if r.name == lock.name && some r.version == lock.version
      then (none, Except.ok true)
      else (some r, Except.error PyError.nameError)

/-- `DynamoDBLockClient._create_entry`: put-if-absent of a fresh record
built from the kwargs, with `name`, `owner`, `version`, `timestamp` and
`is_locked` overwritten, and `duration` defaulting to the policy value.
Succeeds only when no row exists. -/
def create_entry (c : DynamoDBLockClient) (name : String) (params : LockUpdate)
    (newVersion : String) (now : Nat) (row : Option DBRecord) :
    Option DBRecord × Option DynamoDBLock :=
  let duration := params.duration.getD c.policy.lock_duration
  let payload := params.payload.getD none
  match row with
  | some r => (some r, none)
  | none =>
      (some { name := name, duration := duration, is_locked := true,
              owner := c.owner, version := newVersion, payload := payload },
       some { name := name, version := some newVersion, owner := c.owner,
              duration := duration, timestamp := now, is_locked := true,
              payload := payload })

/-- `DynamoDBLockClient._retrieve_entry` on a found row: `to_dict` plus
a fresh local `timestamp`, fed to the `DynamoDBLock` constructor. -/
def dbToLock (r : DBRecord) (readTime : Nat) : DynamoDBLock :=
  { name := r.name, version := some r.version, owner := r.owner,
    duration := r.duration, timestamp := readTime,
    is_locked := r.is_locked, payload := r.payload }

/- ------------------------------------------------------------------
   client.py : touch / release / retrieve
   ------------------------------------------------------------------ -/

/-- `DynamoDBLockClient.touch_lock`: validate locally, then issue the
default-condition `_update_entry`; on success replace the cache entry
for `lock.name`.  Returns (new row, new cache, result). -/
def touch_lock (c : DynamoDBLockClient) (now : Nat) (lock : DynamoDBLock)
    (newVersion : String) (writeTime : Nat) (row : Option DBRecord)
    (cache : Cache) : Option DBRecord × Cache × Option DynamoDBLock :=
  if !(is_lock_valid c now lock) then (row, cache, none)
  else
    let res := update_entry lock none noParams newVersion writeTime row
    match res.2 with
    | some nl => (res.1, cacheInsert cache lock.name nl, some nl)
    | none => (res.1, cache, none)

/-- `DynamoDBLockClient.release_lock`: validate locally, then either
mark unlocked (`delete=False`, via `_update_entry` with
`is_locked=False` added to the kwargs) or conditionally delete
(`delete=True`, via `_delete_entry`); drop the cache entry only when
the release succeeded.  Returns (new row, new cache, result), where the
result is an `Except` because the delete failure path raises. -/
def release_lock (c : DynamoDBLockClient) (now : Nat) (lock : DynamoDBLock)
    (delete : Option Bool) (params : LockUpdate) (newVersion : String)
    (writeTime : Nat) (row : Option DBRecord) (cache : Cache) :
    Option DBRecord × Cache × Except PyError Bool :=
  if !(is_lock_valid c now lock) then (row, cache, Except.ok false)
  else
    let del := delete.getD c.policy.delete_lock
    if !del then
      let params2 := { params with is_locked := some false }
      let res := update_entry lock none params2 newVersion writeTime row
      let is_released := res.2.isSome
      (res.1,
       if is_released && (cacheLookup cache lock.name).isSome
         then cacheErase cache lock.name else cache,
       Except.ok is_released)
    else
      let res := delete_entry lock row
      match res.2 with
      | Except.error e => (res.1, cache, Except.error e)
      | Except.ok is_released =>
          (res.1,
           if is_released && (cacheLookup cache lock.name).isSome
             then cacheErase cache lock.name else cache,
           Except.ok is_released)

/-- `DynamoDBLockClient.retrieve_lock`: nil on an invalid name; prefer
the cached record, else read the table (stamping the local clock);
strip the version and report unlocked records as nil. -/
def retrieve_lock (_c : DynamoDBLockClient) (cache : Cache)
    (row : Option DBRecord) (readTime : Nat) (name : String) :
    Option DynamoDBLock :=
  if !(is_name_valid name) then none
  else
    let current := match cacheLookup cache name with
      | some l => some l
      | none => (Option.map (fun r => dbToLock r readTime) row)
    match current with
    | some cl => if cl.is_locked then some { cl with version := none } else none
    | none => none

/-- `DynamoDBLockClient.does_lock_exist`: truthiness of
`retrieve_lock` (a namedtuple is truthy, `None` is falsy). -/
def does_lock_exist (c : DynamoDBLockClient) (cache : Cache)
    (row : Option DBRecord) (readTime : Nat) (name : String) : Bool :=
  (retrieve_lock c cache row readTime name).isSome

/- ------------------------------------------------------------------
   client.py : acquire_lock
   The retry loop is embedded as a step function over the local
   variables of `acquire_lock`, driven by an environment that supplies,
   per iteration index, every value the body pulls from the outside
   world: the wall clock samples, the row returned by the consistent
   read, the row the store holds at the moment of the conditional
   write, and the freshly drawn version.
   ------------------------------------------------------------------ -/

structure AcquireEnv where
  /-- `get_new_timestamp()` before the loop (`initial_time`). -/
  initTime : Nat
  /-- `get_new_timestamp()` at the while condition of iteration i. -/
  guardTime : Nat → Nat
  /-- The row `_retrieve_entry` finds at iteration i. -/
  readRow : Nat → Option DBRecord
  /-- `get_new_timestamp()` inside `_retrieve_entry` at iteration i. -/
  readTime : Nat → Nat
  /-- `get_new_timestamp()` inside the `is_lock_expired` test of the
  case 3 guard at iteration i. -/
  expireTime : Nat → Nat
  /-- `get_new_version()` for a write issued at iteration i. -/
  newVersion : Nat → String
  /-- The live row at the moment a conditional write of iteration i
  reaches the store (equal to `readRow` in sequential scenarios). -/
  writeRow : Nat → Option DBRecord
  /-- `get_new_timestamp()` inside a write issued at iteration i. -/
  writeTime : Nat → Nat

/-- The local variables of `acquire_lock`, plus the call outcome:
`result = none` while the loop is still running, `some none` after
returning `None`, `some (some l)` after returning lock `l`.  `cached`
records the entry written into `self.locks[name]` on success. -/
structure AcquireState where
  lock_timeout : Nat
  waited_time : Nat
  watching_lock : Option DynamoDBLock
  tried_one_time : Bool
  cached : Option DynamoDBLock
  result : Option (Option DynamoDBLock)
deriving DecidableEq

/-- The variable initialisation before the while loop. -/
def acquireInit (c : DynamoDBLockClient) : AcquireState :=
  { lock_timeout := c.policy.acquire_timeout, waited_time := 0,
    watching_lock := none, tried_one_time := false,
    cached := none, result := none }

/-- The cleanup section at the bottom of the loop body: cache and
return on success, otherwise sleep (`no_wait` false) or mark the one
permitted attempt as used (`no_wait` true). -/
def acquireFinish (c : DynamoDBLockClient) (no_wait : Bool)
    (created : Option DynamoDBLock) (s : AcquireState) : AcquireState :=
  match created with
  | some cl => { s with cached := some cl, result := some (some cl) }
  | none =>
      if !no_wait
      then { s with waited_time := s.waited_time + c.policy.retry_period }
      else { s with tried_one_time := true }

/-- One execution of the while-loop body of `acquire_lock` (iteration
`i`), given that the loop condition just evaluated to true.  The five
cases follow the elif chain of the source; for an existing locked row
the chain orders case 3 (watched, expired, version unchanged), case 4
(not watching yet), case 5 (watched, version changed). -/
def acquireBody (c : DynamoDBLockClient) (env : AcquireEnv) (name : String)
    (params : LockUpdate) (no_wait : Bool) (i : Nat) (s : AcquireState) :
    AcquireState :=
  let current := (env.readRow i).map (fun r => dbToLock r (env.readTime i))
  match current with
  | none =>
      -- Case 1: no existing lock, put-if-absent.
      let created := (create_entry c name params (env.newVersion i)
        (env.writeTime i) (env.writeRow i)).2
      acquireFinish c no_wait created s
  | some cl =>
      if cl.is_locked = false then
        -- Case 2: stale tombstone, conditional overwrite.
        let params2 := { params with owner := some c.owner }
        let created := (update_entry cl
          (some [LockField.fis_locked, LockField.fversion, LockField.fname])
          params2 (env.newVersion i) (env.writeTime i) (env.writeRow i)).2
        acquireFinish c no_wait created s
      else
        match s.watching_lock with
        | some w =>
            if is_lock_expired (env.expireTime i) w
                && (w.version == cl.version) then
              -- Case 3: watched lease expired, version unchanged.
              let params2 := { params with owner := some c.owner }
              let created := (update_entry cl
                (some [LockField.fversion, LockField.fname])
                params2 (env.newVersion i) (env.writeTime i) (env.writeRow i)).2
              acquireFinish c no_wait created s
            else if w.version != cl.version then
              -- Case 5: the holder refreshed; follow the new lease
              -- without extending the deadline.
              acquireFinish c no_wait none { s with watching_lock := some cl }
            else
              -- No case applies (watched, unexpired, same version).
              acquireFinish c no_wait none s
        | none =>
            -- Case 4: first sight of a live foreign lock.
            acquireFinish c no_wait none
              { s with lock_timeout := s.lock_timeout + cl.duration,
                       watching_lock := some cl }

/-- The state after `n` evaluations of the while condition: halt states
are frozen, a true condition runs the body, a false one returns
`None`.  The loop condition is the one of the source,
`now < initial_time + lock_timeout or (no_wait and tried_one_time)`. -/
def acquireRun (c : DynamoDBLockClient) (env : AcquireEnv) (name : String)
    (params : LockUpdate) (no_wait : Bool) : Nat → AcquireState
  | 0 => acquireInit c
  | n + 1 =>
      let s := acquireRun c env name params no_wait n
      match s.result with
      | some _ => s
      | none =>
          if decide (env.guardTime n < env.initTime + s.lock_timeout)
              || (no_wait && s.tried_one_time)
          then acquireBody c env name params no_wait n s
          else { s with result := some none }

/-- `DynamoDBLockClient.acquire_lock`, observed after `fuel` loop
condition checks: `none` means the call has not returned yet. -/
def acquire_lock (c : DynamoDBLockClient) (env : AcquireEnv) (name : String)
    (params : LockUpdate) (no_wait : Bool) (fuel : Nat) :
    Option (Option DynamoDBLock) :=
  if !(is_name_valid name) then some none
  else (acquireRun c env name params no_wait fuel).result

/-- `DynamoDBLockClient.try_acquire_lock` is `acquire_lock` with
`no_wait=True`. -/
def try_acquire_lock (c : DynamoDBLockClient) (env : AcquireEnv)
    (name : String) (params : LockUpdate) (fuel : Nat) :
    Option (Option DynamoDBLock) :=
  acquire_lock c env name params true fuel

/-- Derived observer: the first record the loop started watching (the
value of `watching_lock` at its first transition away from `none`). -/
def firstWatched (c : DynamoDBLockClient) (env : AcquireEnv) (name : String)
    (params : LockUpdate) (no_wait : Bool) : Nat → Option DynamoDBLock
  | 0 => none
  | n + 1 =>
      match firstWatched c env name params no_wait n with
      | some w => some w
      | none => (acquireRun c env name params no_wait (n + 1)).watching_lock

/-- Derived observer: how many of the first `n` steps changed
`lock_timeout` (the case 4 deadline extension is the only statement
that writes it). -/
def extendCount (c : DynamoDBLockClient) (env : AcquireEnv) (name : String)
    (params : LockUpdate) (no_wait : Bool) : Nat → Nat
  | 0 => 0
  | n + 1 =>
      extendCount c env name params no_wait n +
        (if (acquireRun c env name params no_wait (n + 1)).lock_timeout
            = (acquireRun c env name params no_wait n).lock_timeout
         then 0 else 1)

/- ------------------------------------------------------------------
   worker.py : the heartbeat thread
   Ticks count the KV touch calls; the stop event is modelled as being
   set from tick `stopAt` on, and — exactly as in the source — it is
   sampled only at the while condition, never inside a cycle.
   ------------------------------------------------------------------ -/

structure WorkerEnv where
  /-- Tick from which `_is_stopped.is_set()` returns true. -/
  stopAt : Nat
  /-- Clock sample used by the validity test of the touch at a tick. -/
  nowAt : Nat → Nat
  /-- Clock sample used for the write timestamp of the touch. -/
  writeAt : Nat → Nat
  /-- Fresh version drawn by the touch at a tick. -/
  verAt : Nat → String

structure WorkerSt where
  cache : Cache
  store : String → Option DBRecord
  tick : Nat
  /-- Ticks at which the worker issued a KV write call. -/
  events : List Nat

/-- `touch_lock` reaches its one KV write (`_update_entry`) exactly
when the local validity test passes. -/
def touch_issues_write (c : DynamoDBLockClient) (now : Nat)
    (lock : DynamoDBLock) : Bool :=
  is_lock_valid c now lock

/-- The for loop of `DynamoDBLockWorker.run` over a snapshot of
`self.locks.values()`: touch each lock, evict the name on a failed
touch.  There is no stop check anywhere in this loop. -/
def workerTouchList (c : DynamoDBLockClient) (env : WorkerEnv) :
    List DynamoDBLock → WorkerSt → WorkerSt
  | [], st => st
  | lock :: rest, st =>
      let now := env.nowAt st.tick
      let res := touch_lock c now lock (env.verAt st.tick)
        (env.writeAt st.tick) (st.store lock.name) st.cache
      let cache2 := match res.2.2 with
        | some _ => res.2.1
        | none => cacheErase res.2.1 lock.name
      let events2 := if touch_issues_write c now lock
        then st.events ++ [st.tick] else st.events
      workerTouchList c env rest
        { cache := cache2,
          store := fun k => if k = lock.name then res.1 else st.store k,
          tick := st.tick + 1,
          events := events2 }

/-- One cycle of `DynamoDBLockWorker.run` (the elapsed-time measurement
and the sleep issue no KV calls and are not modelled). -/
def workerCycle (c : DynamoDBLockClient) (env : WorkerEnv) (st : WorkerSt) :
    WorkerSt :=
  workerTouchList c env (st.cache.map (fun p => p.2)) st

/-- `DynamoDBLockWorker.run`: loop cycles while the stop event is not
set, sampling the event only at the while condition. -/
def workerRun (c : DynamoDBLockClient) (env : WorkerEnv) :
    Nat → WorkerSt → WorkerSt
  | 0, st => st
  | fuel + 1, st =>
      if env.stopAt ≤ st.tick then st
      else workerRun c env fuel (workerCycle c env st)

/- ------------------------------------------------------------------
   Concrete fixtures used by counterexamples and witnesses
   ------------------------------------------------------------------ -/

/-- A client with the default policy and owner id "me". -/
def clientA : DynamoDBLockClient := { owner := "me", policy := defaultPolicy }

/-- An input dict holding one logical field and one unknown key. -/
def dC9 : Pdict :=
  dinsert (dinsert demp "name" (Val.str "job")) "junk" (Val.num 3)

/-- A stale tombstone row: present but voluntarily released. -/
def rowC1 : DBRecord :=
  { name := "job", duration := 60000, is_locked := false,
    owner := "other", version := "v1", payload := none }

/-- Environment for one uncontended acquire iteration over `rowC1`. -/
def envC1 : AcquireEnv :=
  { initTime := 0, guardTime := fun _ => 5, readRow := fun _ => some rowC1,
    readTime := fun _ => 6, expireTime := fun _ => 7,
    newVersion := fun _ => "v2", writeRow := fun _ => some rowC1,
    writeTime := fun _ => 8 }

/-- The record the stale tombstone branch returns and caches for
`rowC1`: owner and version are rewritten but `is_locked` stays false. -/
def createdC1 : DynamoDBLock :=
  { name := "job", version := some "v2", owner := "me", duration := 60000,
    timestamp := 8, is_locked := false, payload := none }

/-- The table row after the stale tombstone overwrite of `rowC1`:
still unlocked. -/
def rowAfterC1 : DBRecord :=
  { name := "job", duration := 60000, is_locked := false,
    owner := "me", version := "v2", payload := none }

/-- A live foreign lock row used by the try-acquire scenario. -/
def rowBusy : DBRecord :=
  { name := "job", duration := 60000, is_locked := true,
    owner := "other", version := "v1", payload := none }

/-- Environment for the try-acquire-busy scenario: the first read
happens at 69000 ms, every later clock sample is 71000 ms — past the
extended deadline of 70000 ms but before the watched lease expiry at
129000 ms — and the store keeps holding `rowBusy`. -/
def envC2 : AcquireEnv :=
  { initTime := 0,
    guardTime := fun i => match i with | 0 => 0 | _ + 1 => 71000,
    readRow := fun _ => some rowBusy,
    readTime := fun i => match i with | 0 => 69000 | _ + 1 => 71000,
    expireTime := fun _ => 71000,
    newVersion := fun _ => "nv",
    writeRow := fun _ => some rowBusy,
    writeTime := fun _ => 71000 }

/-- The loop state the try-acquire-busy run reaches after its first
iteration and never leaves. -/
def sC2 : AcquireState :=
  { lock_timeout := 70000, waited_time := 0,
    watching_lock := some
      { name := "job", version := some "v1", owner := "other",
        duration := 60000, timestamp := 69000, is_locked := true,
        payload := none },
    tried_one_time := true, cached := none, result := none }

/-- A lock owned by `clientA` whose name is empty (rejected by the name
validator) but which is locked, owned and unexpired. -/
def lockC4 : DynamoDBLock :=
  { name := "", version := some "v1", owner := "me", duration := 60000,
    timestamp := 0, is_locked := true, payload := none }

/-- The matching store row for `lockC4`. -/
def rowC4 : DBRecord :=
  { name := "", duration := 60000, is_locked := true,
    owner := "me", version := "v1", payload := none }

/-- A locally valid lock of `clientA` whose version has gone stale. -/
def lockC5 : DynamoDBLock :=
  { name := "job", version := some "v1", owner := "me", duration := 60000,
    timestamp := 0, is_locked := true, payload := none }

/-- The store row for `lockC5` after some other writer bumped the
version to `v2`. -/
def rowC5 : DBRecord :=
  { name := "job", duration := 60000, is_locked := true,
    owner := "me", version := "v2", payload := none }

/-- Two live locks of `clientA` for the worker scenario. -/
def lockWa : DynamoDBLock :=
  { name := "a", version := some "va", owner := "me", duration := 1000,
    timestamp := 0, is_locked := true, payload := none }

def lockWb : DynamoDBLock :=
  { name := "b", version := some "vb", owner := "me", duration := 1000,
    timestamp := 0, is_locked := true, payload := none }

def rowWa : DBRecord :=
  { name := "a", duration := 1000, is_locked := true,
    owner := "me", version := "va", payload := none }

def rowWb : DBRecord :=
  { name := "b", duration := 1000, is_locked := true,
    owner := "me", version := "vb", payload := none }

/-- Worker environment: the stop event is set from tick 1 on, i.e.
right after the first touch of the first cycle starts. -/
def envW : WorkerEnv :=
  { stopAt := 1, nowAt := fun _ => 10, writeAt := fun _ => 11,
    verAt := fun _ => "nv" }

/-- Worker start state: two cached locks with matching store rows. -/
def stW : WorkerSt :=
  { cache := [("a", lockWa), ("b", lockWb)],
    store := fun k => if k = "a" then some rowWa
      else if k = "b" then some rowWb else none,
    tick := 0, events := [] }

/-- The same worker state already past the stop tick. -/
def stWstopped : WorkerSt :=
  { cache := [("a", lockWa), ("b", lockWb)],
    store := fun k => if k = "a" then some rowWa
      else if k = "b" then some rowWb else none,
    tick := 5, events := [] }

/-- A foreign lock record being watched in the takeover scenario. -/
def lockC10w : DynamoDBLock :=
  { name := "job", version := some "v1", owner := "other",
    duration := 60000, timestamp := 0, is_locked := true, payload := none }

/-- Environment for the takeover iteration: the watched lease has
expired locally (clock 70000 past 0 + 60000) and the store still holds
`rowBusy` with the watched version. -/
def envC10 : AcquireEnv :=
  { initTime := 0, guardTime := fun _ => 5, readRow := fun _ => some rowBusy,
    readTime := fun _ => 70001, expireTime := fun _ => 70002,
    newVersion := fun _ => "v9", writeRow := fun _ => some rowBusy,
    writeTime := fun _ => 70003 }

/-- Loop state while watching `lockC10w`. -/
def sC10 : AcquireState :=
  { lock_timeout := 70000, waited_time := 0,
    watching_lock := some lockC10w, tried_one_time := false,
    cached := none, result := none }

/-- The record the takeover branch returns for `rowBusy` under
`envC10`: the observed record with owner, version and timestamp
replaced, duration kept. -/
def createdC10 : DynamoDBLock :=
  { name := "job", version := some "v9", owner := "me", duration := 60000,
    timestamp := 70003, is_locked := true, payload := none }

end DynamoLock

namespace DynamoLock

/- ------------------------------------------------------------------
   Lemmas about the schema adapter
   ------------------------------------------------------------------ -/

theorem putField_ne (params acc : Pdict) (l a k : String) (h : k ≠ a) :
    putField params acc l a k = acc k := by
  unfold putField
  cases params l with
  | none => rfl
  | some v => simp [dinsert, h]

theorem putField_self (params acc : Pdict) (l a : String) :
    putField params acc l a a =
      match params l with
      | some v => some v
      | none => acc a := by
  unfold putField
  cases params l with
  | none => rfl
  | some v => simp [dinsert]

theorem dinsert_ne (d : Pdict) (k : String) (v : Val) (k2 : String)
    (h : k2 ≠ k) : dinsert d k v k2 = d k2 := by
  simp [dinsert, h]

/-- `to_schema` reads its input only at the six logical keys. -/
theorem to_schema_params_ext (s : DynamoDBLockSchema) (p q : Pdict)
    (h1 : p "name" = q "name") (h2 : p "duration" = q "duration")
    (h3 : p "is_locked" = q "is_locked") (h4 : p "owner" = q "owner")
    (h5 : p "version" = q "version") (h6 : p "payload" = q "payload") :
    to_schema s p = to_schema s q := by
  unfold to_schema putField
  rw [h1, h2, h3, h4, h5, h6]

theorem to_schema_at_name (s : DynamoDBLockSchema) (d : Pdict)
    (h12 : s.name ≠ s.duration) (h13 : s.name ≠ s.is_locked)
    (h14 : s.name ≠ s.owner) (h15 : s.name ≠ s.version)
    (h16 : s.name ≠ s.payload) :
    to_schema s d s.name = d "name" := by
  unfold to_schema
  rw [putField_ne _ _ _ _ _ h16, putField_ne _ _ _ _ _ h15,
      putField_ne _ _ _ _ _ h14, putField_ne _ _ _ _ _ h13,
      putField_ne _ _ _ _ _ h12, putField_self]
  cases hn : d "name" with
  | none => rfl
  | some v => rfl

theorem to_schema_at_duration (s : DynamoDBLockSchema) (d : Pdict)
    (h21 : s.duration ≠ s.name) (h23 : s.duration ≠ s.is_locked)
    (h24 : s.duration ≠ s.owner) (h25 : s.duration ≠ s.version)
    (h26 : s.duration ≠ s.payload) :
    to_schema s d s.duration = d "duration" := by
  unfold to_schema
  rw [putField_ne _ _ _ _ _ h26, putField_ne _ _ _ _ _ h25,
      putField_ne _ _ _ _ _ h24, putField_ne _ _ _ _ _ h23,
      putField_self, putField_ne _ _ _ _ _ h21]
  cases hn : d "duration" with
  | none => rfl
  | some v => rfl

theorem to_schema_at_is_locked (s : DynamoDBLockSchema) (d : Pdict)
    (h31 : s.is_locked ≠ s.name) (h32 : s.is_locked ≠ s.duration)
    (h34 : s.is_locked ≠ s.owner) (h35 : s.is_locked ≠ s.version)
    (h36 : s.is_locked ≠ s.payload) :
    to_schema s d s.is_locked = d "is_locked" := by
  unfold to_schema
  rw [putField_ne _ _ _ _ _ h36, putField_ne _ _ _ _ _ h35,
      putField_ne _ _ _ _ _ h34, putField_self,
      putField_ne _ _ _ _ _ h32, putField_ne _ _ _ _ _ h31]
  cases hn : d "is_locked" with
  | none => rfl
  | some v => rfl

theorem to_schema_at_owner (s : DynamoDBLockSchema) (d : Pdict)
    (h41 : s.owner ≠ s.name) (h42 : s.owner ≠ s.duration)
    (h43 : s.owner ≠ s.is_locked) (h45 : s.owner ≠ s.version)
    (h46 : s.owner ≠ s.payload) :
    to_schema s d s.owner = d "owner" := by
  unfold to_schema
  rw [putField_ne _ _ _ _ _ h46, putField_ne _ _ _ _ _ h45,
      putField_self, putField_ne _ _ _ _ _ h43,
      putField_ne _ _ _ _ _ h42, putField_ne _ _ _ _ _ h41]
  cases hn : d "owner" with
  | none => rfl
  | some v => rfl

theorem to_schema_at_version (s : DynamoDBLockSchema) (d : Pdict)
    (h51 : s.version ≠ s.name) (h52 : s.version ≠ s.duration)
    (h53 : s.version ≠ s.is_locked) (h54 : s.version ≠ s.owner)
    (h56 : s.version ≠ s.payload) :
    to_schema s d s.version = d "version" := by
  unfold to_schema
  rw [putField_ne _ _ _ _ _ h56, putField_self,
      putField_ne _ _ _ _ _ h54, putField_ne _ _ _ _ _ h53,
      putField_ne _ _ _ _ _ h52, putField_ne _ _ _ _ _ h51]
  cases hn : d "version" with
  | none => rfl
  | some v => rfl

theorem to_schema_at_payload (s : DynamoDBLockSchema) (d : Pdict)
    (h61 : s.payload ≠ s.name) (h62 : s.payload ≠ s.duration)
    (h63 : s.payload ≠ s.is_locked) (h64 : s.payload ≠ s.owner)
    (h65 : s.payload ≠ s.version) :
    to_schema s d s.payload = d "payload" := by
  unfold to_schema
  rw [putField_self, putField_ne _ _ _ _ _ h65,
      putField_ne _ _ _ _ _ h64, putField_ne _ _ _ _ _ h63,
      putField_ne _ _ _ _ _ h62, putField_ne _ _ _ _ _ h61]
  cases hn : d "payload" with
  | none => rfl
  | some v => rfl

/-- Claim C9: `to_schema` keeps exactly the attributes of the six
logical fields present in the input, drops every other key (in
particular it never reads or writes `timestamp`), and
`to_dict (to_schema d)` returns each of the six logical fields with its
original value when present in `d` and null when absent.  Stated for
any schema whose six attribute names are pairwise distinct (as the
default `N D L O V P` names are). -/
theorem C9_schema_roundtrip (s : DynamoDBLockSchema) (d : Pdict)
    (h12 : s.name ≠ s.duration) (h13 : s.name ≠ s.is_locked)
    (h14 : s.name ≠ s.owner) (h15 : s.name ≠ s.version)
    (h16 : s.name ≠ s.payload)
    (h23 : s.duration ≠ s.is_locked) (h24 : s.duration ≠ s.owner)
    (h25 : s.duration ≠ s.version) (h26 : s.duration ≠ s.payload)
    (h34 : s.is_locked ≠ s.owner) (h35 : s.is_locked ≠ s.version)
    (h36 : s.is_locked ≠ s.payload)
    (h45 : s.owner ≠ s.version) (h46 : s.owner ≠ s.payload)
    (h56 : s.version ≠ s.payload) :
    (to_schema s d s.name = d "name"
      ∧ to_schema s d s.duration = d "duration"
      ∧ to_schema s d s.is_locked = d "is_locked"
      ∧ to_schema s d s.owner = d "owner"
      ∧ to_schema s d s.version = d "version"
      ∧ to_schema s d s.payload = d "payload")
    ∧ (∀ k, k ∉ schemaAttrs s → to_schema s d k = none)
    ∧ (∀ v, to_schema s (dinsert d "timestamp" v) = to_schema s d)
    ∧ (to_dict s (to_schema s d) "name" = some ((d "name").getD Val.null)
      ∧ to_dict s (to_schema s d) "duration" = some ((d "duration").getD Val.null)
      ∧ to_dict s (to_schema s d) "is_locked" = some ((d "is_locked").getD Val.null)
      ∧ to_dict s (to_schema s d) "owner" = some ((d "owner").getD Val.null)
      ∧ to_dict s (to_schema s d) "version" = some ((d "version").getD Val.null)
      ∧ to_dict s (to_schema s d) "payload" = some ((d "payload").getD Val.null)) := by
  have ha : to_schema s d s.name = d "name" :=
    to_schema_at_name s d h12 h13 h14 h15 h16
  have hb : to_schema s d s.duration = d "duration" :=
    to_schema_at_duration s d h12.symm h23 h24 h25 h26
  have hc : to_schema s d s.is_locked = d "is_locked" :=
    to_schema_at_is_locked s d h13.symm h23.symm h34 h35 h36
  have hd : to_schema s d s.owner = d "owner" :=
    to_schema_at_owner s d h14.symm h24.symm h34.symm h45 h46
  have he : to_schema s d s.version = d "version" :=
    to_schema_at_version s d h15.symm h25.symm h35.symm h45.symm h56
  have hf : to_schema s d s.payload = d "payload" :=
    to_schema_at_payload s d h16.symm h26.symm h36.symm h46.symm h56.symm
  refine ⟨⟨ha, hb, hc, hd, he, hf⟩, ?_, ?_, ?_⟩
  · intro k hk
    simp only [schemaAttrs, List.mem_cons, List.not_mem_nil, or_false] at hk
    push_neg at hk
    obtain ⟨k1, k2, k3, k4, k5, k6⟩ := hk
    unfold to_schema
    rw [putField_ne _ _ _ _ _ k6, putField_ne _ _ _ _ _ k5,
        putField_ne _ _ _ _ _ k4, putField_ne _ _ _ _ _ k3,
        putField_ne _ _ _ _ _ k2, putField_ne _ _ _ _ _ k1]
    rfl
  · intro v
    exact to_schema_params_ext s _ _
      (dinsert_ne d "timestamp" v "name" (by decide))
      (dinsert_ne d "timestamp" v "duration" (by decide))
      (dinsert_ne d "timestamp" v "is_locked" (by decide))
      (dinsert_ne d "timestamp" v "owner" (by decide))
      (dinsert_ne d "timestamp" v "version" (by decide))
      (dinsert_ne d "timestamp" v "payload" (by decide))
  · refine ⟨?_, ?_, ?_, ?_, ?_, ?_⟩ <;> unfold to_dict
    · rw [if_pos rfl, ha]
    · rw [if_neg (by decide), if_pos rfl, hb]
    · rw [if_neg (by decide), if_neg (by decide), if_pos rfl, hc]
    · rw [if_neg (by decide), if_neg (by decide), if_neg (by decide),
          if_pos rfl, hd]
    · rw [if_neg (by decide), if_neg (by decide), if_neg (by decide),
          if_neg (by decide), if_pos rfl, he]
    · rw [if_neg (by decide), if_neg (by decide), if_neg (by decide),
          if_neg (by decide), if_neg (by decide), if_pos rfl, hf]

/-- Witness for C9 at the default schema and a concrete dict: the
present field lands under its attribute name, the unknown key is
dropped, and the reverse mapping nulls the absent field. -/
theorem C9_schema_roundtrip_witness :
    to_schema defaultSchema dC9 "N" = some (Val.str "job")
      ∧ to_schema defaultSchema dC9 "junk" = none
      ∧ to_dict defaultSchema (to_schema defaultSchema dC9) "duration"
          = some Val.null := by
  have H := C9_schema_roundtrip defaultSchema dC9
    (by decide) (by decide) (by decide) (by decide) (by decide)
    (by decide) (by decide) (by decide) (by decide) (by decide)
    (by decide) (by decide) (by decide) (by decide) (by decide)
  refine ⟨?_, ?_, ?_⟩
  · have h := H.1.1
    simpa [dC9, dinsert, demp] using h
  · exact H.2.1 "junk" (by decide)
  · have h := H.2.2.2.2.1
    simpa [dC9, dinsert, demp] using h

/- ------------------------------------------------------------------
   C7 : retrieve_lock / does_lock_exist
   ------------------------------------------------------------------ -/

/-- Claim C7: `retrieve_lock` returns nil on an invalid name and on a
found record with `is_locked = false`, and otherwise returns the found
record with its version stripped; when the name is cached the cached
record is used and the result does not depend on the store at all; and
`does_lock_exist` is true exactly when `retrieve_lock` is non-nil. -/
theorem C7_retrieve_spec (c : DynamoDBLockClient) (cache : Cache)
    (row : Option DBRecord) (readTime : Nat) (name : String) :
    (is_name_valid name = false →
       retrieve_lock c cache row readTime name = none)
    ∧ (∀ l, is_name_valid name = true → cacheLookup cache name = some l →
        (∀ row2 : Option DBRecord,
           retrieve_lock c cache row2 readTime name
             = retrieve_lock c cache row readTime name)
        ∧ retrieve_lock c cache row readTime name
            = (if l.is_locked then some { l with version := none } else none))
    ∧ (is_name_valid name = true → cacheLookup cache name = none →
        retrieve_lock c cache row readTime name
          = (match row with
             | some r =>
                 if r.is_locked
                 then some { dbToLock r readTime with version := none }
                 else none
             | none => none))
    ∧ does_lock_exist c cache row readTime name
        = (retrieve_lock c cache row readTime name).isSome := by
  refine ⟨?_, ?_, ?_, rfl⟩
  · intro h
    simp [retrieve_lock, h]
  · intro l h1 h2
    constructor
    · intro row2
      simp [retrieve_lock, h1, h2]
    · simp [retrieve_lock, h1, h2]
  · intro h1 h2
    cases row with
    | none => simp [retrieve_lock, h1, h2]
    | some r => simp [retrieve_lock, h1, h2, dbToLock]

/-- Witness for C7: a cached locked record is returned with its
version stripped independently of the store, an uncached read strips
the fetched record, and existence mirrors retrieval. -/
theorem C7_retrieve_spec_witness :
    (retrieve_lock clientA [("job", lockC5)] (some rowC4) 3 "job"
       = retrieve_lock clientA [("job", lockC5)] none 3 "job")
    ∧ retrieve_lock clientA [("job", lockC5)] none 3 "job"
        = some { lockC5 with version := none }
    ∧ retrieve_lock clientA [] (some rowBusy) 3 "job"
        = some { dbToLock rowBusy 3 with version := none }
    ∧ retrieve_lock clientA [] none 3 "" = none := by
  have H1 := (C7_retrieve_spec clientA [("job", lockC5)] none 3 "job").2.1
    lockC5 (by decide) (by decide)
  have H2 := (C7_retrieve_spec clientA [] (some rowBusy) 3 "job").2.2.1
    (by decide) (by decide)
  refine ⟨?_, ?_, ?_, ?_⟩
  · exact H1.1 (some rowC4)
  · have h := H1.2
    simpa [lockC5] using h
  · simpa using H2
  · exact (C7_retrieve_spec clientA [] none 3 "").1 (by decide)

/- ------------------------------------------------------------------
   C6 : touch_lock
   ------------------------------------------------------------------ -/

/-- Claim C6: on a locally valid lock, `touch_lock` issues one
conditional update expecting `(version, owner, name)`; on success the
stored row changes only in its version, the cache entry for the name is
replaced by the new record, and the returned record equals the input
with only version and timestamp replaced; on a failed condition (or a
missing row) it returns nil and leaves the cache untouched. -/
theorem C6_touch_spec (c : DynamoDBLockClient) (now : Nat)
    (lock : DynamoDBLock) (v2 : String) (wt : Nat) (r : DBRecord)
    (cache : Cache) (hv : is_lock_valid c now lock = true) :
    (expectMatches r lock
        [LockField.fversion, LockField.fowner, LockField.fname] = true →
       touch_lock c now lock v2 wt (some r) cache
         = (some { r with version := v2 },
            cacheInsert cache lock.name
              { lock with version := some v2, timestamp := wt },
            some { lock with version := some v2, timestamp := wt }))
    ∧ (expectMatches r lock
        [LockField.fversion, LockField.fowner, LockField.fname] = false →
       touch_lock c now lock v2 wt (some r) cache = (some r, cache, none))
    ∧ touch_lock c now lock v2 wt none cache = (none, cache, none) := by
  refine ⟨?_, ?_, ?_⟩
  · intro h
    simp [touch_lock, hv, update_entry, h, mergeUpdate, noParams,
      applyUpdateDB, lockReplace, Option.orElse]
  · intro h
    simp [touch_lock, hv, update_entry, h]
  · simp [touch_lock, hv, update_entry]

/-- Witness for C6 at a concrete valid lock and matching row. -/
theorem C6_touch_spec_witness :
    touch_lock clientA 10 lockC5 "v7" 12 (some
        { name := "job", duration := 60000, is_locked := true,
          owner := "me", version := "v1", payload := none })
      [("job", lockC5)]
      = (some { name := "job", duration := 60000, is_locked := true,
                owner := "me", version := "v7", payload := none },
         cacheInsert [("job", lockC5)] "job"
           { lockC5 with version := some "v7", timestamp := 12 },
         some { lockC5 with version := some "v7", timestamp := 12 }) := by
  have H := (C6_touch_spec clientA 10 lockC5 "v7" 12
    { name := "job", duration := 60000, is_locked := true,
      owner := "me", version := "v1", payload := none }
    [("job", lockC5)] (by decide)).1 (by decide)
  simpa [lockC5] using H

/- ------------------------------------------------------------------
   C1 : the stale tombstone branch of acquire_lock
   ------------------------------------------------------------------ -/

/-- Claim C1 is violated by the code: the stale tombstone branch never
adds `is_locked=True` to its update dict, so the successful overwrite
of an unlocked row returns and caches a record with `is_locked = false`
and leaves `is_locked = false` in the stored row as well.  This theorem
evaluates one acquire iteration over the tombstone `rowC1`. -/
theorem C1_tombstone_left_unlocked :
    (acquireRun clientA envC1 "job" noParams false 1).result
        = some (some createdC1)
    ∧ (acquireRun clientA envC1 "job" noParams false 1).cached
        = some createdC1
    ∧ createdC1.owner = clientA.owner
    ∧ createdC1.is_locked = false
    ∧ (update_entry (dbToLock rowC1 6)
        (some [LockField.fis_locked, LockField.fversion, LockField.fname])
        { noParams with owner := some "me" } "v2" 8 (some rowC1)).1
        = some rowAfterC1
    ∧ rowAfterC1.is_locked = false := by
  refine ⟨rfl, rfl, rfl, rfl, rfl, rfl⟩

/- ------------------------------------------------------------------
   C4 : release_lock local validation
   ------------------------------------------------------------------ -/

/-- Claim C4 is violated by the code: `is_lock_valid` passes the whole
lock record to the name validator (`bool()` of a namedtuple, always
true), so a lock whose name the validator rejects is treated as valid
and `release_lock` does contact the store.  Here the empty-named
`lockC4` is released: the conditional delete is issued, the row is
removed, the cache entry is dropped and the call returns true. -/
theorem C4_invalid_name_still_released :
    is_name_valid lockC4.name = false
    ∧ is_lock_valid clientA 10 lockC4 = true
    ∧ release_lock clientA 10 lockC4 none noParams "nv" 11 (some rowC4)
        [("", lockC4)]
        = (none, [], Except.ok true) := by
  refine ⟨rfl, rfl, rfl⟩

/- ------------------------------------------------------------------
   C5 : release_lock on a stale version
   ------------------------------------------------------------------ -/

/-- Claim C5 is violated by the code on the default (delete) release
path: when the stored version no longer matches, the
`ConditionalCheckFailedException` handler of `_delete_entry` logs the
unbound variable `name` and so raises NameError instead of returning
false.  The store row and the cache entry are indeed left unmodified,
but the call does not return false — it raises. -/
theorem C5_stale_version_raises :
    is_lock_valid clientA 10 lockC5 = true
    ∧ release_lock clientA 10 lockC5 none noParams "nv" 11 (some rowC5)
        [("job", lockC5)]
        = (some rowC5, [("job", lockC5)], Except.error PyError.nameError) := by
  refine ⟨rfl, rfl⟩

/- ------------------------------------------------------------------
   C2 : try_acquire / no_wait
   ------------------------------------------------------------------ -/

/-- One unfolding of the loop runner. -/
theorem acquireRun_succ (c : DynamoDBLockClient) (env : AcquireEnv)
    (name : String) (params : LockUpdate) (no_wait : Bool) (n : Nat) :
    acquireRun c env name params no_wait (n + 1) =
      (let s := acquireRun c env name params no_wait n
       match s.result with
       | some _ => s
       | none =>
           if decide (env.guardTime n < env.initTime + s.lock_timeout)
               || (no_wait && s.tried_one_time)
           then acquireBody c env name params no_wait n s
           else { s with result := some none }) := rfl

/-- Under `envC2` the try-acquire loop reaches the state `sC2` after
its first iteration and `sC2` is a fixpoint of every later iteration:
the loop condition stays true through its `no_wait and tried_one_time`
disjunct although the clock is already past the extended deadline. -/
theorem runC2_fixpoint : ∀ n,
    acquireRun clientA envC2 "job" noParams true (n + 1) = sC2
  | 0 => by rfl
  | n + 1 => by
      rw [acquireRun_succ, runC2_fixpoint n]
      rfl

/-- Claim C2 is violated by the code: with `no_wait` the loop condition
`now < deadline or (no_wait and tried_one_time)` becomes permanently
true once the single permitted attempt has been marked as used, so a
try-acquire against a live foreign lock never terminates (for every
fuel bound the call has still not returned) instead of returning nil
after one iteration.  `try_acquire_lock` itself does equal
`acquire_lock` with `no_wait=True`. -/
theorem C2_try_acquire_never_returns :
    (∀ fuel, try_acquire_lock clientA envC2 "job" noParams fuel = none)
    ∧ (∀ (c : DynamoDBLockClient) (env : AcquireEnv) (name : String)
        (params : LockUpdate) (fuel : Nat),
        try_acquire_lock c env name params fuel
          = acquire_lock c env name params true fuel) := by
  constructor
  · intro fuel
    cases fuel with
    | zero => rfl
    | succ k =>
        show acquire_lock clientA envC2 "job" noParams true (k + 1) = none
        unfold acquire_lock
        rw [runC2_fixpoint k]
        rfl
  · intro c env name params fuel
    rfl

/- ------------------------------------------------------------------
   C3 : the deadline is extended at most once
   ------------------------------------------------------------------ -/

theorem acquireFinish_lock_timeout (c : DynamoDBLockClient) (no_wait : Bool)
    (created : Option DynamoDBLock) (s : AcquireState) :
    (acquireFinish c no_wait created s).lock_timeout = s.lock_timeout := by
  unfold acquireFinish
  cases created with
  | some cl => rfl
  | none => cases no_wait <;> rfl

theorem acquireFinish_watching (c : DynamoDBLockClient) (no_wait : Bool)
    (created : Option DynamoDBLock) (s : AcquireState) :
    (acquireFinish c no_wait created s).watching_lock = s.watching_lock := by
  unfold acquireFinish
  cases created with
  | some cl => rfl
  | none => cases no_wait <;> rfl

/-- Once the loop watches a lock, an iteration never clears the watch
and never changes the deadline: cases 1, 2 and 3 only finish, case 4 is
unreachable and case 5 only replaces the watched record. -/
theorem acquireBody_watching_some (c : DynamoDBLockClient) (env : AcquireEnv)
    (name : String) (params : LockUpdate) (no_wait : Bool) (i : Nat)
    (s : AcquireState) (w : DynamoDBLock) (hw : s.watching_lock = some w) :
    (acquireBody c env name params no_wait i s).lock_timeout = s.lock_timeout
    ∧ (acquireBody c env name params no_wait i s).watching_lock ≠ none := by
  unfold acquireBody
  cases hr : env.readRow i with
  | none =>
      simp only [Option.map_none']
      constructor
      · exact acquireFinish_lock_timeout c no_wait _ s
      · rw [acquireFinish_watching, hw]
        simp
  | some r =>
      simp only [Option.map_some']
      by_cases hl : (dbToLock r (env.readTime i)).is_locked = false
      · rw [if_pos hl]
        constructor
        · exact acquireFinish_lock_timeout c no_wait _ s
        · rw [acquireFinish_watching, hw]
          simp
      · rw [if_neg hl]
        simp only [hw]
        split_ifs with h3 h5 <;>
          refine ⟨acquireFinish_lock_timeout c no_wait _ _, ?_⟩ <;>
          rw [acquireFinish_watching] <;> simp [hw]

/-- While nothing is watched, an iteration either leaves both the
watch and the deadline alone, or (case 4, on a live foreign record)
starts watching the observed record and extends the deadline by its
duration. -/
theorem acquireBody_watching_none (c : DynamoDBLockClient) (env : AcquireEnv)
    (name : String) (params : LockUpdate) (no_wait : Bool) (i : Nat)
    (s : AcquireState) (hw : s.watching_lock = none) :
    ((acquireBody c env name params no_wait i s).watching_lock = none
      ∧ (acquireBody c env name params no_wait i s).lock_timeout
          = s.lock_timeout)
    ∨ (∃ r, env.readRow i = some r ∧ r.is_locked = true
        ∧ (acquireBody c env name params no_wait i s).watching_lock
            = some (dbToLock r (env.readTime i))
        ∧ (acquireBody c env name params no_wait i s).lock_timeout
            = s.lock_timeout + r.duration) := by
  unfold acquireBody
  cases hr : env.readRow i with
  | none =>
      left
      simp only [Option.map_none']
      constructor
      · rw [acquireFinish_watching]
        exact hw
      · exact acquireFinish_lock_timeout c no_wait _ s
  | some r =>
      simp only [Option.map_some']
      by_cases hl : (dbToLock r (env.readTime i)).is_locked = false
      · left
        rw [if_pos hl]
        refine ⟨?_, acquireFinish_lock_timeout c no_wait _ s⟩
        rw [acquireFinish_watching]
        exact hw
      · right
        rw [if_neg hl]
        simp only [hw]
        refine ⟨r, rfl, ?_, ?_, ?_⟩
        · have hh : (dbToLock r (env.readTime i)).is_locked = true := by
            cases hh2 : (dbToLock r (env.readTime i)).is_locked
            · exact absurd hh2 hl
            · rfl
          exact hh
        · rw [acquireFinish_watching]
        · rw [acquireFinish_lock_timeout]
          rfl

/-- Each loop step either freezes the watch and deadline projections
(already returned, or the loop condition failed) or runs the body. -/
theorem acquireRun_succ_proj (c : DynamoDBLockClient) (env : AcquireEnv)
    (name : String) (params : LockUpdate) (no_wait : Bool) (n : Nat) :
    ((acquireRun c env name params no_wait (n + 1)).watching_lock
        = (acquireRun c env name params no_wait n).watching_lock
      ∧ (acquireRun c env name params no_wait (n + 1)).lock_timeout
        = (acquireRun c env name params no_wait n).lock_timeout)
    ∨ acquireRun c env name params no_wait (n + 1)
        = acquireBody c env name params no_wait n
            (acquireRun c env name params no_wait n) := by
  rw [acquireRun_succ]
  cases hres : (acquireRun c env name params no_wait n).result with
  | some r =>
      left
      simp [hres]
  | none =>
      simp only [hres]
      by_cases hg : (decide (env.guardTime n < env.initTime
          + (acquireRun c env name params no_wait n).lock_timeout)
          || (no_wait && (acquireRun c env name params no_wait n).tried_one_time))
          = true
      · right
        rw [if_pos hg]
      · left
        rw [if_neg hg]
        exact ⟨rfl, rfl⟩

/-- Inductive invariant of the acquire loop: before the first watch the
deadline is the configured acquire timeout and no extension happened;
afterwards the deadline is the acquire timeout plus the duration of the
first watched record, and at most one extension ever happened. -/
theorem acquireInv (c : DynamoDBLockClient) (env : AcquireEnv) (name : String)
    (params : LockUpdate) (no_wait : Bool) : ∀ n,
    ((acquireRun c env name params no_wait n).watching_lock = none
      ∧ firstWatched c env name params no_wait n = none
      ∧ (acquireRun c env name params no_wait n).lock_timeout
          = c.policy.acquire_timeout
      ∧ extendCount c env name params no_wait n = 0)
    ∨ (∃ w, firstWatched c env name params no_wait n = some w
        ∧ (acquireRun c env name params no_wait n).watching_lock ≠ none
        ∧ (acquireRun c env name params no_wait n).lock_timeout
            = c.policy.acquire_timeout + w.duration
        ∧ extendCount c env name params no_wait n ≤ 1) := by
  intro n
  induction n with
  | zero =>
      left
      exact ⟨rfl, rfl, rfl, rfl⟩
  | succ n ih =>
      have hfw : firstWatched c env name params no_wait (n + 1)
          = (match firstWatched c env name params no_wait n with
             | some w => some w
             | none =>
                 (acquireRun c env name params no_wait (n + 1)).watching_lock) :=
        rfl
      have hec : extendCount c env name params no_wait (n + 1)
          = extendCount c env name params no_wait n
            + (if (acquireRun c env name params no_wait (n + 1)).lock_timeout
                  = (acquireRun c env name params no_wait n).lock_timeout
               then 0 else 1) := rfl
      rcases acquireRun_succ_proj c env name params no_wait n with
        ⟨hwl, hlt⟩ | hstep
      · rcases ih with ⟨h1, h2, h3, h4⟩ | ⟨w, h1, h2, h3, h4⟩
        · left
          refine ⟨hwl.trans h1, ?_, hlt.trans h3, ?_⟩
          · rw [hfw, h2]
            exact hwl.trans h1
          · rw [hec, h4, if_pos hlt]
        · right
          refine ⟨w, by rw [hfw, h1], ?_, hlt.trans h3, ?_⟩
          · rw [hwl]
            exact h2
          · rw [hec, if_pos hlt]
            omega
      · rcases ih with ⟨h1, h2, h3, h4⟩ | ⟨w, h1, h2, h3, h4⟩
        · rcases acquireBody_watching_none c env name params no_wait n _ h1 with
            ⟨hb1, hb2⟩ | ⟨r, hr, hrl, hb1, hb2⟩
          · left
            have hwl : (acquireRun c env name params no_wait (n + 1)).watching_lock
                = none := by rw [hstep]; exact hb1
            have hlt : (acquireRun c env name params no_wait (n + 1)).lock_timeout
                = (acquireRun c env name params no_wait n).lock_timeout := by
              rw [hstep]; exact hb2
            refine ⟨hwl, ?_, hlt.trans h3, ?_⟩
            · rw [hfw, h2]
              exact hwl
            · rw [hec, h4, if_pos hlt]
          · right
            have hwl : (acquireRun c env name params no_wait (n + 1)).watching_lock
                = some (dbToLock r (env.readTime n)) := by rw [hstep]; exact hb1
            have hlt : (acquireRun c env name params no_wait (n + 1)).lock_timeout
                = (acquireRun c env name params no_wait n).lock_timeout
                  + r.duration := by rw [hstep]; exact hb2
            refine ⟨dbToLock r (env.readTime n), ?_, ?_, ?_, ?_⟩
            · rw [hfw, h2]
              exact hwl
            · rw [hwl]
              simp
            · rw [hlt, h3]
              rfl
            · rw [hec, h4]
              split <;> omega
        · obtain ⟨w2, hw2⟩ := Option.ne_none_iff_exists'.mp h2
          obtain ⟨hb1, hb2⟩ :=
            acquireBody_watching_some c env name params no_wait n _ w2 hw2
          right
          have hlt : (acquireRun c env name params no_wait (n + 1)).lock_timeout
              = (acquireRun c env name params no_wait n).lock_timeout := by
            rw [hstep]; exact hb1
          have hwl : (acquireRun c env name params no_wait (n + 1)).watching_lock
              ≠ none := by rw [hstep]; exact hb2
          refine ⟨w, by rw [hfw, h1], hwl, hlt.trans h3, ?_⟩
          rw [hec, if_pos hlt]
          omega

/-- Claim C3: within one acquire call the case 4 deadline extension
happens at most once (the deadline value changes in at most one
iteration), and throughout the call `lock_timeout` never exceeds the
configured acquire timeout plus the duration of the first foreign lock
the caller started watching. -/
theorem C3_deadline_extended_once (c : DynamoDBLockClient) (env : AcquireEnv)
    (name : String) (params : LockUpdate) (no_wait : Bool) (n : Nat) :
    extendCount c env name params no_wait n ≤ 1
    ∧ ((acquireRun c env name params no_wait n).lock_timeout
          = c.policy.acquire_timeout
      ∨ ∃ w, firstWatched c env name params no_wait n = some w
          ∧ (acquireRun c env name params no_wait n).lock_timeout
              = c.policy.acquire_timeout + w.duration) := by
  rcases acquireInv c env name params no_wait n with
    ⟨h1, h2, h3, h4⟩ | ⟨w, h1, h2, h3, h4⟩
  · exact ⟨by omega, Or.inl h3⟩
  · exact ⟨h4, Or.inr ⟨w, h1, h3⟩⟩

/- ------------------------------------------------------------------
   C8 : worker stop signal
   ------------------------------------------------------------------ -/

/-- Counterexample to claim C8: the worker samples the stop event only
at the while condition, not between the touch calls of a cycle.  With
two cached locks and the stop event set from tick 1 on (right after the
first touch of the cycle starts), the run still issues a KV write at
tick 1 — a write started after stop — so it is not the case that every
issued write precedes the stop. -/
theorem C8_counterexample :
    ¬ (∀ g ∈ (workerRun clientA envW 2 stW).events, g < envW.stopAt) := by
  decide

/-- Claim C8 as amended: the stop signal is checked only between
cycles, so (a) a worker that is at the between-cycles check with the
stop event already set exits at once, issuing no further KV call, and
(b) every KV write recorded during a cycle carries a tick within the
current cycle, i.e. between the tick of the cycle's stop check and that
tick plus the number of snapshotted locks — so only the cycle already
in progress when stop lands can still write. -/
theorem C8_stop_checked_between_cycles (c : DynamoDBLockClient)
    (env : WorkerEnv) :
    (∀ fuel st, env.stopAt ≤ st.tick → workerRun c env fuel st = st)
    ∧ (∀ locks st g, g ∈ (workerTouchList c env locks st).events →
        g ∈ st.events ∨ (st.tick ≤ g ∧ g < st.tick + locks.length)) := by
  constructor
  · intro fuel st h
    cases fuel with
    | zero => rfl
    | succ k =>
        unfold workerRun
        rw [if_pos h]
  · intro locks
    induction locks with
    | nil =>
        intro st g hg
        exact Or.inl hg
    | cons lock rest ih =>
        intro st g hg
        simp only [workerTouchList] at hg
        rcases ih _ g hg with h | ⟨h1, h2⟩
        · have h3 : g ∈ (if touch_issues_write c (env.nowAt st.tick) lock = true
              then st.events ++ [st.tick] else st.events) := h
          by_cases hw : touch_issues_write c (env.nowAt st.tick) lock = true
          · rw [if_pos hw] at h3
            rcases List.mem_append.mp h3 with h4 | h4
            · exact Or.inl h4
            · right
              have h5 : g = st.tick := List.mem_singleton.mp h4
              subst h5
              have h6 : (lock :: rest).length = rest.length + 1 := rfl
              exact ⟨Nat.le_refl _, by omega⟩
          · rw [if_neg hw] at h3
            exact Or.inl h3
        · right
          have h1b : st.tick + 1 ≤ g := h1
          have h2b : g < st.tick + 1 + rest.length := h2
          have h6 : (lock :: rest).length = rest.length + 1 := rfl
          exact ⟨by omega, by omega⟩

/-- Witness for the amended C8: a stopped worker makes no step, and a
concrete touch-list write tick lies inside its cycle window. -/
theorem C8_stop_checked_between_cycles_witness :
    workerRun clientA envW 3 stWstopped = stWstopped
    ∧ (0 ∈ stW.events
        ∨ (stW.tick ≤ 0 ∧ 0 < stW.tick + [lockWa].length)) := by
  constructor
  · exact (C8_stop_checked_between_cycles clientA envW).1 3 stWstopped
      (by decide)
  · exact (C8_stop_checked_between_cycles clientA envW).2 [lockWa] stW 0
      (by decide)

/- ------------------------------------------------------------------
   C10 : the expired takeover branch keeps the foreign duration
   ------------------------------------------------------------------ -/

/-- Claim C10: when acquire succeeds through case 3 (watched foreign
lock locally expired, version unchanged, conditional write against the
same row succeeds) with no caller-supplied params, the record returned
and cached is the observed foreign record with only owner (this
client), version (fresh) and timestamp (local write clock) replaced —
in particular its duration is the previous holder's stored duration,
and the configured default `lock_duration` plays no part. -/
theorem C10_takeover_keeps_duration (c : DynamoDBLockClient)
    (env : AcquireEnv) (name : String) (params : LockUpdate)
    (no_wait : Bool) (i : Nat) (s : AcquireState) (w : DynamoDBLock)
    (r : DBRecord)
    (hw : s.watching_lock = some w)
    (hr : env.readRow i = some r)
    (hwr : env.writeRow i = some r)
    (hlocked : r.is_locked = true)
    (hexp : is_lock_expired (env.expireTime i) w = true)
    (hver : w.version = some r.version)
    (hp1 : params.name = none) (hp2 : params.version = none)
    (hp3 : params.duration = none) (hp4 : params.timestamp = none)
    (hp5 : params.is_locked = none) (hp6 : params.payload = none) :
    (acquireBody c env name params no_wait i s).result
        = some (some { dbToLock r (env.readTime i) with
            owner := c.owner, version := some (env.newVersion i),
            timestamp := env.writeTime i })
    ∧ (acquireBody c env name params no_wait i s).cached
        = some { dbToLock r (env.readTime i) with
            owner := c.owner, version := some (env.newVersion i),
            timestamp := env.writeTime i }
    ∧ ({ dbToLock r (env.readTime i) with
            owner := c.owner, version := some (env.newVersion i),
            timestamp := env.writeTime i } : DynamoDBLock).duration
        = r.duration := by
  have hcase : acquireBody c env name params no_wait i s
      = acquireFinish c no_wait
          (some (lockReplace (dbToLock r (env.readTime i))
            (mergeUpdate
              { version := some (env.newVersion i),
                timestamp := some (env.writeTime i) }
              { params with owner := some c.owner }))) s := by
    unfold acquireBody
    rw [hr]
    simp only [Option.map_some']
    rw [if_neg (by simp [dbToLock, hlocked])]
    simp only [hw]
    rw [if_pos (by simp [dbToLock, hexp, hver])]
    unfold update_entry
    rw [hwr]
    simp only [List.isEmpty_cons]
    rw [if_pos (by simp [expectMatches, getattrMatches, dbToLock])]
  have hlock : lockReplace (dbToLock r (env.readTime i))
      (mergeUpdate
        { version := some (env.newVersion i),
          timestamp := some (env.writeTime i) }
        { params with owner := some c.owner })
      = { dbToLock r (env.readTime i) with
          owner := c.owner, version := some (env.newVersion i),
          timestamp := env.writeTime i } := by
    simp [lockReplace, mergeUpdate, dbToLock, hp1, hp2, hp3, hp4, hp5, hp6,
      Option.orElse]
  rw [hcase, hlock]
  exact ⟨rfl, rfl, rfl⟩

/-- Witness for C10 at a concrete expired takeover. -/
theorem C10_takeover_keeps_duration_witness :
    (acquireBody clientA envC10 "job" noParams false 0 sC10).result
        = some (some createdC10)
    ∧ (acquireBody clientA envC10 "job" noParams false 0 sC10).cached
        = some createdC10
    ∧ createdC10.duration = rowBusy.duration := by
  have H := C10_takeover_keeps_duration clientA envC10 "job" noParams false 0
    sC10 lockC10w rowBusy rfl rfl rfl rfl (by decide) rfl
    rfl rfl rfl rfl rfl rfl
  exact H

end DynamoLock
